import Mathlib

/-!
Verification development for the racing-decoded repository.

The definitions below are shallow embeddings of the TypeScript sources:
numbers are embedded as rationals, nullable values as `Option`, and the
documented formula strings of `src/lib/dna-formulas.ts` as executable
functions. Presentation-only strings (step descriptions, variable glossaries,
CSS classes) are omitted; every numeric and control-flow fact is kept.
-/

namespace RacingDecoded

/-! ### Model of src/lib/dna-formulas.ts

`DNA_FORMULAS` is a record of trait formula documentation. Each trait has a
list of weighted components. We keep the component names and weights (the
data the claims are about) and embed each documented formula string as a
Lean function named after the variable it defines in the source.
-/

/-- One weighted sub-component of a trait (name and weight fields of the
`components` entries in `dna-formulas.ts`). -/
structure FormulaComponent where
  name : String
  weight : ℚ
deriving DecidableEq

/-- A trait formula: its component list (descriptions and step texts are
presentation strings and are omitted). -/
structure TraitFormula where
  components : List FormulaComponent
deriving DecidableEq

/-- The `aggression` entry of `DNA_FORMULAS` (lines 24-159). -/
def aggression_formula : TraitFormula :=
  ⟨[⟨"Overtaking Rate", 0.4⟩, ⟨"First Lap Aggression", 0.35⟩, ⟨"Late Race Moves", 0.25⟩]⟩

/-- The `consistency` entry of `DNA_FORMULAS` (lines 161-278). -/
def consistency_formula : TraitFormula :=
  ⟨[⟨"Finishing Reliability", 0.4⟩, ⟨"Qualifying Consistency", 0.35⟩, ⟨"Points Scoring Reliability", 0.25⟩]⟩

/-- The `pressure_performance` entry of `DNA_FORMULAS` (lines 280-425). -/
def pressure_performance_formula : TraitFormula :=
  ⟨[⟨"Championship Pressure", 0.4⟩, ⟨"Season Ending Performance", 0.25⟩, ⟨"Must-Win Performance", 0.2⟩, ⟨"Recovery Performance", 0.15⟩]⟩

/-- The `racecraft` entry of `DNA_FORMULAS` (lines 427-556). -/
def racecraft_formula : TraitFormula :=
  ⟨[⟨"Overtaking Quality", 0.35⟩, ⟨"Defensive Driving", 0.25⟩, ⟨"Wheel-to-Wheel Combat", 0.25⟩, ⟨"Strategic Race Intelligence", 0.15⟩]⟩

/-- The `race_start` entry of `DNA_FORMULAS` (lines 558-622). -/
def race_start_formula : TraitFormula :=
  ⟨[⟨"First Lap Position Change", 1.0⟩]⟩

/-- Record `DNA_FORMULAS` as an association list keyed by trait key (line 23). -/
def DNA_FORMULAS : List (String × TraitFormula) :=
  [("aggression", aggression_formula),
   ("consistency", consistency_formula),
   ("pressure_performance", pressure_performance_formula),
   ("racecraft", racecraft_formula),
   ("race_start", race_start_formula)]

/-- The names of the inherited `Object.prototype` members that JavaScript
bracket access on a plain object literal finds after missing every own key.
Each of them is a function or object, hence truthy. -/
def objectPrototypeMembers : List String :=
  ["constructor", "hasOwnProperty", "isPrototypeOf", "propertyIsEnumerable",
    "toLocaleString", "toString", "valueOf", "__defineGetter__", "__defineSetter__",
    "__lookupGetter__", "__lookupSetter__", "__proto__"]

/-- Runtime result of `getTraitFormula`: one of the five own formula
objects, a truthy member inherited from `Object.prototype` (which
`|| null` passes through), or the `null` of the `|| null` fallback. -/
inductive TraitFormulaResult where
  | formula : TraitFormula → TraitFormulaResult
  | inherited : String → TraitFormulaResult
  | jsNull : TraitFormulaResult
deriving DecidableEq

/-- Function `getTraitFormula(traitKey)` returns `DNA_FORMULAS[traitKey] || null`
(lines 626-628). JavaScript bracket access checks the own keys first and
then the prototype chain: an own trait key yields its formula object; the
name of an inherited `Object.prototype` member yields that inherited truthy
member, which `|| null` passes through; only otherwise is the access
`undefined` (falsy) and the result `null`. -/
def getTraitFormula (traitKey : String) : TraitFormulaResult :=
  match DNA_FORMULAS.lookup traitKey with
  | some t => TraitFormulaResult.formula t
  | none =>
    if traitKey ∈ objectPrototypeMembers then TraitFormulaResult.inherited traitKey
    else TraitFormulaResult.jsNull

/-- Sum of the component weights of a trait formula. -/
def traitWeightSum (t : TraitFormula) : ℚ :=
  (t.components.map FormulaComponent.weight).sum

/-! ### Documented formula steps embedded as functions -/

/-- Step `gain_score = min(100, max(0, avg_gain × 10 + 50))` — the Overtaking
Rate gain score of the Aggression trait (line 50). -/
def gain_score (avg_gain : ℚ) : ℚ :=
  min 100 (max 0 (avg_gain * 10 + 50))

/-- Step `consistency_score = max(0, 100 - (cv × 100))` — Qualifying Consistency
(line 215). -/
def consistency_score (cv : ℚ) : ℚ :=
  max 0 (100 - cv * 100)

/-- Step `consecutive_consistency = max(0, 100 - (avg_consecutive_diff × 5))`
(line 222). -/
def consecutive_consistency (avg_consecutive_diff : ℚ) : ℚ :=
  max 0 (100 - avg_consecutive_diff * 5)

/-- Step `final_consistency = consistency_score × 0.7 + consecutive_consistency × 0.3`
(line 229). -/
def final_consistency (cs cc : ℚ) : ℚ :=
  cs * 0.7 + cc * 0.3

/-- The Championship Pressure conditional scoring (line 316):
`if effect < -2: 80+(abs(effect+2)*3), elif effect < 0: 60+(abs(effect)*10),
elif effect < 2: 50-(effect*5), else: max(10, 40-((effect-2)*5))`. -/
def championship_pressure_score (effect : ℚ) : ℚ :=
  if effect < -2 then 80 + |effect + 2| * 3
  else if effect < 0 then 60 + |effect| * 10
  else if effect < 2 then 50 - effect * 5
  else max 10 (40 - (effect - 2) * 5)

/-- The same mapping as the claim words it: an ordered first-match-wins
piecewise function with fully written-out guards. -/
def championship_pressure_piecewise (effect : ℚ) : ℚ :=
  if effect < -2 then 80 + |effect + 2| * 3
  else if -2 ≤ effect ∧ effect < 0 then 60 + |effect| * 10
  else if 0 ≤ effect ∧ effect < 2 then 50 - effect * 5
  else max 10 (40 - (effect - 2) * 5)

/-- Step `consistency = 1 / (1 + std_dev(position_changes))` — Strategic
Race Intelligence (line 535). -/
def strategic_consistency (std_dev : ℚ) : ℚ :=
  1 / (1 + std_dev)

/-- Step `strategic_score = 50 + (avg_improvement × 8) + (consistency × 20)` —
Strategic Race Intelligence (line 543). The documented steps apply no clamp. -/
def strategic_score (avg_improvement consistency : ℚ) : ℚ :=
  50 + avg_improvement * 8 + consistency * 20

/-- Step `base_score = 50 + (avg_position_change × -10)` — Race Start (line 592). -/
def base_score (avg_position_change : ℚ) : ℚ :=
  50 + avg_position_change * (-10)

/-- Step `frequency_bonus = (gain_rate - loss_rate) × 20` — Race Start (line 600). -/
def frequency_bonus (gain_rate loss_rate : ℚ) : ℚ :=
  (gain_rate - loss_rate) * 20

/-- Step `race_start_score = base_score + frequency_bonus` — Race Start final
calculation (lines 609 and 619); the documented steps apply no clamp. -/
def race_start_score (avg_position_change gain_rate loss_rate : ℚ) : ℚ :=
  base_score avg_position_change + frequency_bonus gain_rate loss_rate

/-- Function `clamp(value, lo, hi)`. Modelled from the spec: the trait-score invariant
says every final trait score is "itself clamped to [0, 100]"; the clamp is
not written in the documented formula steps. -/
def clamp (lo hi x : ℚ) : ℚ :=
  min hi (max lo x)

/-! ### Model of the persisted DNA profile record

Fields of the Prisma `DriverDnaProfile` read by the components and routes
below. Scores are nullable numbers. `careerSpan` is a nullable string such
as "2007-2024"; we model it by the list of years the insights route
extracts from it with the regex `\d{4}` (`none` models a falsy string). -/

structure DnaProfile where
  aggressionScore : Option ℚ
  consistencyScore : Option ℚ
  racecraftScore : Option ℚ
  pressurePerformanceScore : Option ℚ
  raceStartScore : Option ℚ
  clutchFactorScore : Option ℚ
  racesAnalyzed : Option ℚ
  careerSpan : Option (List ℕ)
deriving DecidableEq

/-- Dynamic access `profile[field]` used by the rankings route and the
insights route; unknown keys give `undefined`, modelled as `none`. -/
def dnaProfileField (p : DnaProfile) (field : String) : Option ℚ :=
  if field = "aggressionScore" then p.aggressionScore
  else if field = "consistencyScore" then p.consistencyScore
  else if field = "racecraftScore" then p.racecraftScore
  else if field = "pressurePerformanceScore" then p.pressurePerformanceScore
  else if field = "raceStartScore" then p.raceStartScore
  else if field = "clutchFactorScore" then p.clutchFactorScore
  else none

/-! ### Model of DNAScoreBadge.tsx -/

/-- What a rendered badge displays: the `N/A` branch for a null score, or
the numeric value branch (`score.toFixed(1)`); colors and markup are
presentation and omitted. -/
inductive BadgeText where
  | na : BadgeText
  | value : ℚ → BadgeText
deriving DecidableEq

/-- Component `DNAScoreBadge` (lines 8-42): renders `N/A` when `score === null`,
otherwise the numeric value. -/
def dnaScoreBadge (score : Option ℚ) : BadgeText :=
  match score with
  | none => BadgeText.na
  | some v => BadgeText.value v

/-- The clutch badge line of `DriverCard`:
`{profile.clutchFactorScore && <DNAScoreBadge label='Clutch' score={...} />}`.
The badge is rendered only when the score is truthy, so `null` and `0` both
produce no badge. -/
def driverCardClutchBadge (clutch : Option ℚ) : Option BadgeText :=
  match clutch with
  | none => none
  | some v => if v = 0 then none else some (dnaScoreBadge (some v))

/-- The badge list rendered by `DriverCard` (lines 90-98): five
unconditional `DNAScoreBadge`s and the conditional clutch badge. -/
def driverCardBadges (p : DnaProfile) : List BadgeText :=
  [dnaScoreBadge p.aggressionScore, dnaScoreBadge p.consistencyScore,
    dnaScoreBadge p.racecraftScore, dnaScoreBadge p.pressurePerformanceScore]
  ++ (driverCardClutchBadge p.clutchFactorScore).toList
  ++ [dnaScoreBadge p.raceStartScore]

/-! ### Model of the insights route aggregation -/

/-- JavaScript `Number(x.toFixed(1))`: round to one decimal place, ties away
from zero toward the larger value. -/
def round1 (x : ℚ) : ℚ :=
  (round (x * 10) : ℤ) / 10

/-- A point of `scatterData` in `getAggressionParadoxData`: extracted career
span years, nullable aggression score, and `wins` (defaulted to 0 by
`driver.racingStats?.wins || 0`). -/
structure ScatterPoint where
  careerSpan : Option (List ℕ)
  aggressionScore : Option ℚ
  wins : ℚ
deriving DecidableEq

/-- The decade buckets of `calculateEraAverages`, in insertion order (which
is also `localeCompare` order). -/
def decades : List String :=
  ["1950s", "1960s", "1970s", "1980s", "1990s", "2000s", "2010s", "2020s"]

/-- The decade assignment of `calculateEraAverages` (lines 326-333): chained
comparisons on the mid-career year. -/
def eraBucket (midYear : ℕ) : String :=
  if midYear < 1960 then "1950s"
  else if midYear < 1970 then "1960s"
  else if midYear < 1980 then "1970s"
  else if midYear < 1990 then "1980s"
  else if midYear < 2000 then "1990s"
  else if midYear < 2010 then "2000s"
  else if midYear < 2020 then "2010s"
  else "2020s"

/-- Steps `startYear = years[0]; endYear = years.length > 1 ? years[1] : startYear;
midYear = floor((startYear + endYear) / 2)` (lines 321-323). -/
def midCareerYear (years : List ℕ) : ℕ :=
  let startYear := years.headD 0
  let endYear := if 1 < years.length then years.getD 1 0 else startYear
  (startYear + endYear) / 2

/-- The driver-inclusion test of `calculateEraAverages` (lines 315-319):
`if (!driver.careerSpan || !driver.aggressionScore) return;` followed by
the extracted-years emptiness check. A score of 0 is falsy in JavaScript. -/
def eraAveragesIncluded (d : ScatterPoint) : Bool :=
  match d.careerSpan, d.aggressionScore with
  | some ys, some v => !ys.isEmpty && !(v == 0)
  | _, _ => false

/-- The era a scatter point is assigned to. -/
def scatterEra (d : ScatterPoint) : String :=
  eraBucket (midCareerYear (d.careerSpan.getD []))

/-- The aggression scores collected into one era group by
`calculateEraAverages`. -/
def eraScores (data : List ScatterPoint) (era : String) : List ℚ :=
  (data.filter fun d => eraAveragesIncluded d && (scatterEra d == era)).filterMap
    ScatterPoint.aggressionScore

/-- One output row of `calculateEraAverages`. -/
structure EraAverage where
  era : String
  avgAggression : ℚ
  driverCount : ℕ
deriving DecidableEq

/-- Function `calculateEraAverages` (lines 301-345): group scores by decade, drop
empty groups, average each group and round to one decimal. -/
def calculateEraAverages (data : List ScatterPoint) : List EraAverage :=
  decades.filterMap fun era =>
    let scores := eraScores data era
    if scores.isEmpty then none
    else some ⟨era, round1 (scores.sum / scores.length), scores.length⟩

/-- The trait keys averaged by `calculateMultiTraitEraAverages` (line 383). -/
def traitFields : List String :=
  ["aggressionScore", "consistencyScore", "racecraftScore",
    "pressurePerformanceScore", "raceStartScore"]

/-- Value collection of `calculateMultiTraitEraAverages` (lines 391-393):
map each profile to its trait value when it is a number, else null, then
keep the non-null ones. -/
def traitValues (profiles : List DnaProfile) (t : String) : List ℚ :=
  ((profiles.map fun p => dnaProfileField p t).filter Option.isSome).filterMap id

/-- The era group assignment of `calculateMultiTraitEraAverages` (lines
360-380): a profile is grouped when its careerSpan is truthy and yields
years; its scores are not inspected. -/
def eraProfiles (data : List (Option DnaProfile)) (era : String) : List DnaProfile :=
  data.filterMap fun p =>
    match p with
    | some prof =>
      match prof.careerSpan with
      | some ys =>
        if ys.isEmpty then none
        else if eraBucket (midCareerYear ys) = era then some prof else none
      | none => none
    | none => none

/-- One output row of `calculateMultiTraitEraAverages`: era, driver count
and one nullable average per trait key. -/
structure EraTraitAverages where
  era : String
  driverCount : ℕ
  traitAvgs : List (String × Option ℚ)
deriving DecidableEq

/-- Function `calculateMultiTraitEraAverages` (lines 347-405). -/
def calculateMultiTraitEraAverages (data : List (Option DnaProfile)) : List EraTraitAverages :=
  decades.filterMap fun era =>
    let profiles := eraProfiles data era
    if profiles.isEmpty then none
    else some ⟨era, profiles.length, traitFields.map fun t =>
      let values := traitValues profiles t
      (t, if values.isEmpty then none else some (round1 (values.sum / values.length)))⟩

/-- The win rate of `getConsistencyTrapData` (lines 174-176):
`racesAnalyzed ? (wins / racesAnalyzed) * 100 : 0` — the falsy test catches
both null and 0. -/
def winRate (racesAnalyzed : Option ℚ) (wins : ℚ) : ℚ :=
  match racesAnalyzed with
  | none => 0
  | some n => if n = 0 then 0 else wins / n * 100

/-- The drivers of a win range bucket in `getAggressionParadoxData`
(lines 105-107). -/
def winRangeBucket (mn mx : ℚ) (data : List ScatterPoint) : List ScatterPoint :=
  data.filter fun d => decide (mn ≤ d.wins) && decide (d.wins ≤ mx)

/-- One `aggByWinRange` entry (lines 104-117): average aggression of the
bucket (0 when the bucket is empty) and the bucket size. -/
def aggByWinRangeEntry (mn mx : ℚ) (data : List ScatterPoint) : ℚ × ℕ :=
  let b := winRangeBucket mn mx data
  (if 0 < b.length then round1 ((b.map fun d => d.aggressionScore.getD 0).sum / b.length) else 0,
    b.length)

/-! ### Model of the rankings route (api/rankings/[slug]/route.ts) -/

/-- Sort direction of a ranking configuration. -/
inductive SortOrder where
  | asc : SortOrder
  | desc : SortOrder
deriving DecidableEq

/-- Ranking category of a configuration. -/
inductive RankCategory where
  | dna : RankCategory
  | career : RankCategory
  | circuit : RankCategory
  | era : RankCategory
deriving DecidableEq

/-- One entry of `rankingsConfig` in `rankings-config.ts` (title and meta
strings omitted); `circuitRef` models `filters?.circuitRef` and
`customQuery` defaults to false when absent. -/
structure RankingConfig where
  slug : String
  sortField : String
  sortOrder : SortOrder
  category : RankCategory
  circuitRef : Option String
  customQuery : Bool
deriving DecidableEq

/-- The full `rankingsConfig` record of `rankings-config.ts`, in key order. -/
def rankingsConfig : List RankingConfig :=
  [⟨"most-aggressive", "aggressionScore", SortOrder.desc, RankCategory.dna, none, false⟩,
   ⟨"most-consistent", "consistencyScore", SortOrder.desc, RankCategory.dna, none, false⟩,
   ⟨"best-racecraft", "racecraftScore", SortOrder.desc, RankCategory.dna, none, false⟩,
   ⟨"best-under-pressure", "pressurePerformanceScore", SortOrder.desc, RankCategory.dna, none, false⟩,
   ⟨"best-race-start", "raceStartScore", SortOrder.desc, RankCategory.dna, none, false⟩,
   ⟨"most-wins", "wins", SortOrder.desc, RankCategory.career, none, false⟩,
   ⟨"most-podiums", "podiums", SortOrder.desc, RankCategory.career, none, false⟩,
   ⟨"best-average-finish", "avgFinishPosition", SortOrder.asc, RankCategory.career, none, false⟩,
   ⟨"most-races", "totalRaces", SortOrder.desc, RankCategory.career, none, false⟩,
   ⟨"best-championship-finish", "bestChampionshipFinish", SortOrder.asc, RankCategory.career, none, false⟩,
   ⟨"most-wins-monaco", "wins", SortOrder.desc, RankCategory.circuit, some "monaco", true⟩,
   ⟨"most-wins-silverstone", "wins", SortOrder.desc, RankCategory.circuit, some "silverstone", true⟩,
   ⟨"most-wins-monza", "wins", SortOrder.desc, RankCategory.circuit, some "monza", true⟩,
   ⟨"most-wins-spa", "wins", SortOrder.desc, RankCategory.circuit, some "spa", true⟩,
   ⟨"most-wins-interlagos", "wins", SortOrder.desc, RankCategory.circuit, some "interlagos", true⟩,
   ⟨"most-wins-suzuka", "wins", SortOrder.desc, RankCategory.circuit, some "suzuka", true⟩]

/-- The guard of route line 104 that diverts to `handleCircuitRanking`. -/
def isCircuitCustom (cfg : RankingConfig) : Bool :=
  cfg.customQuery && (cfg.category == RankCategory.circuit) && cfg.circuitRef.isSome

/-- Fields of the Prisma `DriverRacingStats` read by the rankings route. -/
structure RacingStats where
  wins : Option ℚ
  podiums : Option ℚ
  avgFinishPosition : Option ℚ
  totalRaces : Option ℚ
  bestChampionshipFinish : Option ℚ
deriving DecidableEq

/-- Dynamic access `racingStats[field]`; unknown keys give `undefined`. -/
def racingStatsField (s : RacingStats) (field : String) : Option ℚ :=
  if field = "wins" then s.wins
  else if field = "podiums" then s.podiums
  else if field = "avgFinishPosition" then s.avgFinishPosition
  else if field = "totalRaces" then s.totalRaces
  else if field = "bestChampionshipFinish" then s.bestChampionshipFinish
  else none

/-- A driver row with its optional relations, as fetched by the route. -/
structure RankDriver where
  driverId : ℕ
  dnaProfile : Option DnaProfile
  racingStats : Option RacingStats
deriving DecidableEq

/-- One element of the `drivers` array the route responds with (name,
nationality, age and the spread profile payload are presentation and
omitted). -/
structure RankedEntry where
  id : ℕ
  position : ℕ
  rankingValue : Option ℚ
deriving DecidableEq

/-- The Prisma `where` clause (route lines 116-125): DNA rankings require a
DNA profile, career rankings require racing stats. -/
def dbWhere (cfg : RankingConfig) (d : RankDriver) : Bool :=
  (!(cfg.category == RankCategory.dna) || d.dnaProfile.isSome) &&
    (!(cfg.category == RankCategory.career) || d.racingStats.isSome)

/-- The data filter (route lines 131-145): for DNA and career rankings the
sorted field must be present and non-null; other categories pass. -/
def passesDataFilter (cfg : RankingConfig) (d : RankDriver) : Bool :=
  match cfg.category with
  | RankCategory.dna =>
    match d.dnaProfile with
    | none => false
    | some p => (dnaProfileField p cfg.sortField).isSome
  | RankCategory.career =>
    match d.racingStats with
    | none => false
    | some s => (racingStatsField s cfg.sortField).isSome
  | _ => true

/-- The ranking value assignment (route lines 150-156). -/
def rankingValueOf (cfg : RankingConfig) (d : RankDriver) : Option ℚ :=
  match cfg.category with
  | RankCategory.dna =>
    match d.dnaProfile with
    | some p => dnaProfileField p cfg.sortField
    | none => none
  | RankCategory.career =>
    match d.racingStats with
    | some s => racingStatsField s cfg.sortField
    | none => none
  | _ => none

/-- The `.map((driver, index) => ...)` step (route lines 146-177): build
response entries with 1-based pre-sort positions. -/
def toEntries (cfg : RankingConfig) : ℕ → List RankDriver → List RankedEntry
  | _, [] => []
  | i, d :: ds => ⟨d.driverId, i + 1, rankingValueOf cfg d⟩ :: toEntries cfg (i + 1) ds

/-- The sort comparator (route lines 180-193) as a may-come-before test:
null ranking values always go to the end, otherwise compare by value in the
configured direction. -/
def rankLe (ord : SortOrder) (a b : Option ℚ) : Bool :=
  match a, b with
  | none, none => true
  | none, some _ => false
  | some _, none => true
  | some x, some y =>
    match ord with
    | SortOrder.asc => decide (x ≤ y)
    | SortOrder.desc => decide (y ≤ x)

/-- The comparator lifted to response entries. -/
def entryLe (ord : SortOrder) (a b : RankedEntry) : Prop :=
  rankLe ord a.rankingValue b.rankingValue = true

instance (ord : SortOrder) : DecidableRel (entryLe ord) :=
  fun _ _ => inferInstanceAs (Decidable (_ = true))

/-- The `forEach` of route lines 197-199: renumber positions 1-based. -/
def setPositions : ℕ → List RankedEntry → List RankedEntry
  | _, [] => []
  | n, e :: es => { e with position := n } :: setPositions (n + 1) es

/-- The generic (non-circuit) path of the rankings `GET` route: Prisma
query filter, data filter, entry construction, JavaScript sort, top-20
slice and position renumbering. -/
def rankingsGET (cfg : RankingConfig) (drivers : List RankDriver) : List RankedEntry :=
  setPositions 1
    ((List.insertionSort (entryLe cfg.sortOrder)
        (toEntries cfg 0
          ((drivers.filter (dbWhere cfg)).filter (passesDataFilter cfg)))).take 20)

/-! ### Theorems for claims C1 through C5 -/

/-- C1: for every trait in the `DNA_FORMULAS` record (aggression,
consistency, pressure_performance, racecraft, race_start), the weights of
the components of that trait sum to exactly 1 (hence certainly within 1e-9). -/
theorem dna_formulas_weights_sum_to_one :
    DNA_FORMULAS.map (fun kv => traitWeightSum kv.2) = [1, 1, 1, 1, 1] := by
  norm_num [DNA_FORMULAS, traitWeightSum, aggression_formula, consistency_formula,
    pressure_performance_formula, racecraft_formula, race_start_formula,
    List.sum_cons, List.sum_nil]

/-- C3: the Championship Pressure score equals the ordered first-match-wins
piecewise function of the pressure effect stated by the claim, for every
value of the effect. -/
theorem championship_pressure_matches_piecewise (effect : ℚ) :
    championship_pressure_score effect = championship_pressure_piecewise effect := by
  unfold championship_pressure_score championship_pressure_piecewise
  rcases lt_or_le effect (-2) with h1 | h1
  · simp [h1]
  · have h1n : ¬effect < -2 := not_lt.mpr h1
    rcases lt_or_le effect 0 with h2 | h2
    · simp [h1n, h2, h1]
    · have h2n : ¬effect < 0 := not_lt.mpr h2
      rcases lt_or_le effect 2 with h3 | h3
      · simp [h1n, h2n, h2, h3]
      · have h3n : ¬effect < 2 := not_lt.mpr h3
        simp [h1n, h2n, h3n]

/-- C4: the Race Start score is antitone in the average lap-1 position
change: with gain and loss rates fixed, a smaller (more negative, i.e. more
positions gained) average change never yields a smaller score. -/
theorem race_start_score_antitone (gain_rate loss_rate a b : ℚ) (hab : a ≤ b) :
    race_start_score b gain_rate loss_rate ≤ race_start_score a gain_rate loss_rate := by
  unfold race_start_score base_score frequency_bonus
  linarith

/-- Witness for C4 at a concrete input: average change -1 versus 2. -/
theorem race_start_score_antitone_witness :
    (-1 : ℚ) ≤ 2 ∧ race_start_score 2 0 0 ≤ race_start_score (-1) 0 0 :=
  ⟨by norm_num, race_start_score_antitone 0 0 (-1) 2 (by norm_num)⟩

/-- C5: with coefficient of variation 0 and zero consecutive differences the
documented Consistency qualifying component evaluates to 100, and with
average qualifying-to-finish gain 0 the documented Aggression overtaking
gain score evaluates to 50. -/
theorem zero_variance_component_scores :
    final_consistency (consistency_score 0) (consecutive_consistency 0) = 100 ∧
      gain_score 0 = 50 := by
  constructor <;> norm_num [final_consistency, consistency_score, consecutive_consistency, gain_score]

/-- C2 counterexample: at the valid statistics avg change -10 (a driver who
gains ten places on lap 1 of every race), gain rate 1, loss rate 0, the
documented Race Start final score is 170, above 100; and the documented
Strategic Race Intelligence score at average improvement 10 with standard
deviation 1 is 140, above 100. Neither documented calculation clamps. -/
theorem race_start_and_strategic_exceed_bounds :
    100 < race_start_score (-10) 1 0 ∧
      100 < strategic_score 10 (strategic_consistency 1) := by
  constructor <;> norm_num [race_start_score, base_score, frequency_bonus,
    strategic_score, strategic_consistency]

/-- C2 amended: the documented component formulas that carry an explicit
min/max clamp (such as the Aggression gain score) always lie in [0, 100],
and the Race Start final score lies in [0, 100] once the external clamp
required by the trait-score invariant is applied; the raw documented Race
Start final score and Strategic Race Intelligence score are unclamped and
can leave [0, 100]. -/
theorem clamped_scores_bounded (avg a g l : ℚ) :
    (0 ≤ gain_score avg ∧ gain_score avg ≤ 100) ∧
      (0 ≤ clamp 0 100 (race_start_score a g l) ∧
        clamp 0 100 (race_start_score a g l) ≤ 100) := by
  refine ⟨⟨?_, ?_⟩, ⟨?_, ?_⟩⟩
  · exact le_min (by norm_num) (le_max_left 0 _)
  · exact min_le_left 100 _
  · exact le_min (by norm_num) (le_max_left 0 _)
  · exact min_le_left 100 _

/-! ### Theorems for claims C6 through C8 -/

/-- C6 counterexample: a computed clutch-factor score of 0 is treated as
missing by DriverCard — the truthiness guard renders no clutch badge at
all, so the profile below shows only five badges and no numeric 0. -/
theorem clutch_zero_badge_hidden :
    driverCardClutchBadge (some 0) = none ∧
      driverCardBadges ⟨some 50, some 50, some 50, some 50, some 50, some 0, none, none⟩ =
        [BadgeText.value 50, BadgeText.value 50, BadgeText.value 50, BadgeText.value 50,
          BadgeText.value 50] := by
  constructor
  · simp [driverCardClutchBadge]
  · simp [driverCardBadges, driverCardClutchBadge, dnaScoreBadge]

/-- C6 amended: `DNAScoreBadge` itself renders `N/A` exactly for a null
score and the numeric value (including 0) for every numeric score, and the
five unconditional badges follow it; but the clutch-factor badge of
`DriverCard` is rendered only for a truthy score, so it is absent exactly
when the score is null or 0. -/
theorem badge_na_iff_null :
    (∀ s : Option ℚ, dnaScoreBadge s = BadgeText.na ↔ s = none) ∧
      (∀ v : ℚ, dnaScoreBadge (some v) = BadgeText.value v) ∧
      (∀ c : Option ℚ, driverCardClutchBadge c = none ↔ (c = none ∨ c = some 0)) := by
  refine ⟨?_, ?_, ?_⟩
  · intro s; cases s <;> simp [dnaScoreBadge]
  · intro v; rfl
  · intro c
    cases c with
    | none => simp [driverCardClutchBadge]
    | some v => by_cases hv : v = 0 <;> simp [driverCardClutchBadge, hv, dnaScoreBadge]

/-- Collecting the somes of a list after filtering on `isSome` is the same
as collecting them directly. -/
theorem filter_isSome_filterMap_id {α : Type} (l : List (Option α)) :
    (l.filter Option.isSome).filterMap id = l.filterMap id := by
  induction l with
  | nil => rfl
  | cons h t ih => cases h <;> simp [List.filter_cons, List.filterMap_cons, ih]

/-- C7 counterexample: `calculateEraAverages` drops a driver whose stored
aggression score is the number 0 exactly as if it were null — adding such a
driver changes neither the era average nor the driver count, so the claim
that 0 is aggregated like any other numeric score is false. -/
theorem era_average_excludes_zero_score :
    calculateEraAverages
        [⟨some [2000, 2004], some 50, 0⟩, ⟨some [2000, 2004], some 0, 0⟩] =
      calculateEraAverages [⟨some [2000, 2004], some 50, 0⟩] ∧
    calculateEraAverages
        [⟨some [2000, 2004], some 50, 0⟩, ⟨some [2000, 2004], some 0, 0⟩] =
      [⟨"2000s", 50, 1⟩] := by
  constructor
  · rfl
  · simp only [calculateEraAverages, decades, eraScores, eraAveragesIncluded, scatterEra,
      midCareerYear, eraBucket, List.filterMap, List.filter]
    norm_num [round1]

/-- C7 amended: `calculateMultiTraitEraAverages` aggregates exactly the
non-null stored scores — a stored 0 is kept like any number and only null
is dropped — while `calculateEraAverages` excludes a driver whose
aggression score is 0 through the JavaScript truthiness test, exactly as it
excludes a null score. -/
theorem era_aggregation_zero_handling :
    (∀ (profiles : List DnaProfile) (t : String),
        traitValues profiles t = profiles.filterMap fun p => dnaProfileField p t) ∧
      (∀ (ys : List ℕ) (v w : ℚ),
        eraAveragesIncluded ⟨some ys, some v, w⟩ = (!ys.isEmpty && !(v == 0))) ∧
      (∀ (cs : Option (List ℕ)) (w : ℚ),
        eraAveragesIncluded ⟨cs, none, w⟩ = false) := by
  refine ⟨?_, ?_, ?_⟩
  · intro profiles t
    rw [traitValues, filter_isSome_filterMap_id, List.filterMap_map]
    rfl
  · intro ys v w; rfl
  · intro cs w; cases cs <;> rfl

/-- C8: the insights aggregation guards its zero denominators — the win
rate is 0 when racesAnalyzed is null or 0, and the average aggression of a
win-range bucket is 0 when the bucket has no drivers. -/
theorem insights_zero_denominator_guards (w mn mx : ℚ) (data : List ScatterPoint)
    (hempty : winRangeBucket mn mx data = []) :
    winRate none w = 0 ∧ winRate (some 0) w = 0 ∧ (aggByWinRangeEntry mn mx data).1 = 0 := by
  refine ⟨rfl, ?_, ?_⟩
  · simp [winRate]
  · simp [aggByWinRangeEntry, hempty]

/-- Witness for C8 on the empty driver list. -/
theorem insights_zero_denominator_guards_witness :
    winRangeBucket 0 0 ([] : List ScatterPoint) = [] ∧
      (winRate none 5 = 0 ∧ winRate (some 0) 5 = 0 ∧
        (aggByWinRangeEntry 0 0 ([] : List ScatterPoint)).1 = 0) :=
  ⟨rfl, insights_zero_denominator_guards 5 0 0 [] rfl⟩

/-! ### Theorems for claims C9 and C10 -/

/-- A null value never comes before a present value. -/
theorem rankLe_none_some (ord : SortOrder) (x : ℚ) :
    rankLe ord none (some x) = false := rfl

/-- A present value may come before a null value. -/
theorem rankLe_some_none (ord : SortOrder) (x : ℚ) :
    rankLe ord (some x) none = true := rfl

/-- Ascending comparison of present values. -/
theorem rankLe_asc_some (x y : ℚ) :
    rankLe SortOrder.asc (some x) (some y) = decide (x ≤ y) := rfl

/-- Descending comparison of present values. -/
theorem rankLe_desc_some (x y : ℚ) :
    rankLe SortOrder.desc (some x) (some y) = decide (y ≤ x) := rfl

/-- The comparator is total on nullable ranking values. -/
theorem rankLe_total (ord : SortOrder) (x y : Option ℚ) :
    rankLe ord x y = true ∨ rankLe ord y x = true := by
  cases x with
  | none =>
    cases y with
    | none => exact Or.inl rfl
    | some b => exact Or.inr rfl
  | some a =>
    cases y with
    | none => exact Or.inl rfl
    | some b =>
      cases ord with
      | asc =>
        rcases le_total a b with h | h
        · exact Or.inl (by simpa [rankLe_asc_some] using h)
        · exact Or.inr (by simpa [rankLe_asc_some] using h)
      | desc =>
        rcases le_total a b with h | h
        · exact Or.inr (by simpa [rankLe_desc_some] using h)
        · exact Or.inl (by simpa [rankLe_desc_some] using h)

/-- The comparator is transitive on nullable ranking values. -/
theorem rankLe_trans (ord : SortOrder) (x y z : Option ℚ)
    (h1 : rankLe ord x y = true) (h2 : rankLe ord y z = true) :
    rankLe ord x z = true := by
  cases x with
  | none =>
    cases y with
    | none => exact h2
    | some b => exact absurd h1 (by simp [rankLe_none_some])
  | some a =>
    cases z with
    | none => exact rankLe_some_none ord a
    | some c =>
      cases y with
      | none => exact absurd h2 (by simp [rankLe_none_some])
      | some b =>
        cases ord with
        | asc =>
          have hab : a ≤ b := by simpa [rankLe_asc_some] using h1
          have hbc : b ≤ c := by simpa [rankLe_asc_some] using h2
          simpa [rankLe_asc_some] using le_trans hab hbc
        | desc =>
          have hba : b ≤ a := by simpa [rankLe_desc_some] using h1
          have hcb : c ≤ b := by simpa [rankLe_desc_some] using h2
          simpa [rankLe_desc_some] using le_trans hcb hba

instance (ord : SortOrder) : IsTotal RankedEntry (entryLe ord) where
  total a b := rankLe_total ord a.rankingValue b.rankingValue

instance (ord : SortOrder) : IsTrans RankedEntry (entryLe ord) where
  trans a b c h1 h2 := rankLe_trans ord a.rankingValue b.rankingValue c.rankingValue h1 h2

/-- Renumbering keeps the list length. -/
theorem setPositions_length (n : ℕ) (l : List RankedEntry) :
    (setPositions n l).length = l.length := by
  induction l generalizing n with
  | nil => rfl
  | cons e es ih => simp [setPositions, ih]

/-- Renumbering keeps every ranking value. -/
theorem setPositions_map_rankingValue (n : ℕ) (l : List RankedEntry) :
    (setPositions n l).map RankedEntry.rankingValue = l.map RankedEntry.rankingValue := by
  induction l generalizing n with
  | nil => rfl
  | cons e es ih => simp [setPositions, ih]

/-- After renumbering from `n`, the element at index `i` holds position
`n + i`. -/
theorem setPositions_get_position (l : List RankedEntry) (n i : ℕ)
    (h : i < (setPositions n l).length) :
    ((setPositions n l).get ⟨i, h⟩).position = n + i := by
  induction l generalizing n i with
  | nil => simp [setPositions] at h
  | cons e es ih =>
    cases i with
    | zero => simp [setPositions]
    | succ j =>
      have h' : j < (setPositions (n + 1) es).length := by
        simpa [setPositions] using h
      simp only [setPositions, List.get_cons_succ]
      rw [ih]
      omega

/-- Every produced entry carries the ranking value of a listed driver. -/
theorem toEntries_mem (cfg : RankingConfig) (i : ℕ) (ds : List RankDriver) (e : RankedEntry)
    (he : e ∈ toEntries cfg i ds) :
    ∃ d ∈ ds, e.rankingValue = rankingValueOf cfg d := by
  induction ds generalizing i with
  | nil => simp [toEntries] at he
  | cons d ds ih =>
    simp only [toEntries, List.mem_cons] at he
    rcases he with rfl | he
    · exact ⟨d, List.mem_cons_self d ds, rfl⟩
    · obtain ⟨d', hd', hv⟩ := ih (i + 1) he
      exact ⟨d', List.mem_cons_of_mem d hd', hv⟩

/-- For DNA and career rankings, a driver that passes the data filter has a
present ranking value. -/
theorem rankingValueOf_isSome (cfg : RankingConfig) (d : RankDriver)
    (hcat : cfg.category = RankCategory.dna ∨ cfg.category = RankCategory.career)
    (hpass : passesDataFilter cfg d = true) :
    (rankingValueOf cfg d).isSome = true := by
  unfold passesDataFilter at hpass
  unfold rankingValueOf
  rcases hcat with h | h
  · rw [h] at hpass ⊢
    rcases hd : d.dnaProfile with _ | p
    · rw [hd] at hpass
      simp at hpass
    · rw [hd] at hpass
      simpa using hpass
  · rw [h] at hpass ⊢
    rcases hd : d.racingStats with _ | s
    · rw [hd] at hpass
      simp at hpass
    · rw [hd] at hpass
      simpa using hpass

/-- Every configured non-circuit ranking is a DNA or a career ranking. -/
theorem nonCircuit_category (cfg : RankingConfig) (hmem : cfg ∈ rankingsConfig)
    (hnc : isCircuitCustom cfg = false) :
    cfg.category = RankCategory.dna ∨ cfg.category = RankCategory.career := by
  fin_cases hmem <;>
    first
      | exact Or.inl rfl
      | exact Or.inr rfl
      | exact absurd hnc (by decide)

/-- C9: for every non-circuit ranking configuration with a known slug, the
generic rankings route returns at most 20 entries, every returned entry has
a non-null ranking value, the returned ranking values are sorted by the
configured comparator, and each returned position equals the 1-based index. -/
theorem rankingsGET_spec (cfg : RankingConfig) (drivers : List RankDriver)
    (hmem : cfg ∈ rankingsConfig) (hnc : isCircuitCustom cfg = false) :
    (rankingsGET cfg drivers).length ≤ 20 ∧
      (∀ e ∈ rankingsGET cfg drivers, e.rankingValue ≠ none) ∧
      List.Sorted (fun a b => rankLe cfg.sortOrder a b = true)
        ((rankingsGET cfg drivers).map RankedEntry.rankingValue) ∧
      (∀ i (h : i < (rankingsGET cfg drivers).length),
        ((rankingsGET cfg drivers).get ⟨i, h⟩).position = i + 1) := by
  have hcat := nonCircuit_category cfg hmem hnc
  unfold rankingsGET
  refine ⟨?_, ?_, ?_, ?_⟩
  · rw [setPositions_length, List.length_take]
    exact min_le_left _ _
  · intro e he
    have hmapped : e.rankingValue ∈
        (setPositions 1
          ((List.insertionSort (entryLe cfg.sortOrder)
            (toEntries cfg 0
              ((drivers.filter (dbWhere cfg)).filter (passesDataFilter cfg)))).take 20)).map
          RankedEntry.rankingValue :=
      List.mem_map_of_mem _ he
    rw [setPositions_map_rankingValue] at hmapped
    obtain ⟨e', he', hv⟩ := List.mem_map.mp hmapped
    have he'' := List.take_subset 20 _ he'
    have he3 : e' ∈ toEntries cfg 0
        ((drivers.filter (dbWhere cfg)).filter (passesDataFilter cfg)) :=
      (List.perm_insertionSort (entryLe cfg.sortOrder) _).mem_iff.mp he''
    obtain ⟨d, hd, hvd⟩ := toEntries_mem cfg 0 _ e' he3
    have hpass : passesDataFilter cfg d = true := (List.mem_filter.mp hd).2
    have hsome := rankingValueOf_isSome cfg d hcat hpass
    rw [← hv, hvd]
    exact Option.isSome_iff_ne_none.mp hsome
  · rw [setPositions_map_rankingValue]
    refine List.Pairwise.map _ (fun a b h => h) ?_
    exact List.Pairwise.sublist (List.take_sublist _ _)
      (List.sorted_insertionSort (entryLe cfg.sortOrder) _)
  · intro i h
    rw [setPositions_get_position]
    omega

/-- Witness for C9: the most-aggressive configuration on a one-driver list. -/
theorem rankingsGET_spec_witness :
    ((⟨"most-aggressive", "aggressionScore", SortOrder.desc, RankCategory.dna, none,
        false⟩ : RankingConfig) ∈ rankingsConfig) ∧
      isCircuitCustom
        ⟨"most-aggressive", "aggressionScore", SortOrder.desc, RankCategory.dna, none,
          false⟩ = false ∧
      ((rankingsGET
          ⟨"most-aggressive", "aggressionScore", SortOrder.desc, RankCategory.dna, none, false⟩
          [⟨1, some ⟨some 80, none, none, none, none, none, none, none⟩, none⟩]).length ≤ 20 ∧
        (∀ e ∈ rankingsGET
            ⟨"most-aggressive", "aggressionScore", SortOrder.desc, RankCategory.dna, none, false⟩
            [⟨1, some ⟨some 80, none, none, none, none, none, none, none⟩, none⟩],
          e.rankingValue ≠ none) ∧
        List.Sorted (fun a b => rankLe SortOrder.desc a b = true)
          ((rankingsGET
            ⟨"most-aggressive", "aggressionScore", SortOrder.desc, RankCategory.dna, none, false⟩
            [⟨1, some ⟨some 80, none, none, none, none, none, none, none⟩, none⟩]).map
            RankedEntry.rankingValue) ∧
        (∀ i (h : i < (rankingsGET
            ⟨"most-aggressive", "aggressionScore", SortOrder.desc, RankCategory.dna, none, false⟩
            [⟨1, some ⟨some 80, none, none, none, none, none, none, none⟩, none⟩]).length),
          ((rankingsGET
            ⟨"most-aggressive", "aggressionScore", SortOrder.desc, RankCategory.dna, none, false⟩
            [⟨1, some ⟨some 80, none, none, none, none, none, none, none⟩, none⟩]).get
            ⟨i, h⟩).position = i + 1)) :=
  ⟨by decide, by decide,
    rankingsGET_spec _ [⟨1, some ⟨some 80, none, none, none, none, none, none, none⟩, none⟩]
      (by decide) (by decide)⟩

/-- Looking a string up among the five own trait keys fails when it equals
none of them. -/
theorem lookup_none_of_not_trait (k : String)
    (hk : k ∉ ["aggression", "consistency", "pressure_performance", "racecraft", "race_start"]) :
    DNA_FORMULAS.lookup k = none := by
  simp only [List.mem_cons, List.not_mem_nil, or_false, not_or] at hk
  obtain ⟨h1, h2, h3, h4, h5⟩ := hk
  have e1 : (k == "aggression") = false := beq_eq_false_iff_ne.mpr h1
  have e2 : (k == "consistency") = false := beq_eq_false_iff_ne.mpr h2
  have e3 : (k == "pressure_performance") = false := beq_eq_false_iff_ne.mpr h3
  have e4 : (k == "racecraft") = false := beq_eq_false_iff_ne.mpr h4
  have e5 : (k == "race_start") = false := beq_eq_false_iff_ne.mpr h5
  simp [DNA_FORMULAS, List.lookup, e1, e2, e3, e4, e5]

/-- C10 counterexample: toString is not one of the five trait keys, yet
`getTraitFormula` does not return null for it — the bracket access walks
the prototype chain to the inherited truthy `Object.prototype.toString`,
which the `|| null` fallback passes through. -/
theorem getTraitFormula_toString_not_null :
    "toString" ∉ ["aggression", "consistency", "pressure_performance", "racecraft", "race_start"] ∧
      getTraitFormula "toString" = TraitFormulaResult.inherited "toString" ∧
      getTraitFormula "toString" ≠ TraitFormulaResult.jsNull := by
  refine ⟨by decide, by decide, by decide⟩

/-- C10 amended: `getTraitFormula` returns the corresponding formula for
exactly the five trait keys; for every other string it returns null unless
the string names an inherited `Object.prototype` member, in which case the
prototype-chain access returns that truthy member instead of null —
clutch_factor names no such member and therefore yields null. -/
theorem getTraitFormula_domain :
    (∀ k ∈ ["aggression", "consistency", "pressure_performance", "racecraft", "race_start"],
        ∃ t, getTraitFormula k = TraitFormulaResult.formula t) ∧
      (∀ k : String,
        k ∉ ["aggression", "consistency", "pressure_performance", "racecraft", "race_start"] →
          k ∈ objectPrototypeMembers →
            getTraitFormula k = TraitFormulaResult.inherited k) ∧
      (∀ k : String,
        k ∉ ["aggression", "consistency", "pressure_performance", "racecraft", "race_start"] →
          k ∉ objectPrototypeMembers →
            getTraitFormula k = TraitFormulaResult.jsNull) := by
  refine ⟨?_, ?_, ?_⟩
  · intro k hk
    fin_cases hk <;> exact ⟨_, rfl⟩
  · intro k hk hproto
    rw [getTraitFormula, lookup_none_of_not_trait k hk]
    simp [hproto]
  · intro k hk hproto
    rw [getTraitFormula, lookup_none_of_not_trait k hk]
    simp [hproto]

/-- Witness for C10 at the keys aggression, toString and clutch_factor. -/
theorem getTraitFormula_domain_witness :
    ("aggression" ∈
        ["aggression", "consistency", "pressure_performance", "racecraft", "race_start"] ∧
      ∃ t, getTraitFormula "aggression" = TraitFormulaResult.formula t) ∧
      ("toString" ∉
          ["aggression", "consistency", "pressure_performance", "racecraft", "race_start"] ∧
        "toString" ∈ objectPrototypeMembers ∧
        getTraitFormula "toString" = TraitFormulaResult.inherited "toString") ∧
      ("clutch_factor" ∉
          ["aggression", "consistency", "pressure_performance", "racecraft", "race_start"] ∧
        "clutch_factor" ∉ objectPrototypeMembers ∧
        getTraitFormula "clutch_factor" = TraitFormulaResult.jsNull) :=
  ⟨⟨by decide, getTraitFormula_domain.1 "aggression" (by decide)⟩,
    ⟨by decide, by decide, getTraitFormula_domain.2.1 "toString" (by decide) (by decide)⟩,
    ⟨by decide, by decide, getTraitFormula_domain.2.2 "clutch_factor" (by decide) (by decide)⟩⟩

end RacingDecoded
